import Mathlib

/-!
Shallow embedding of the LangGraph human-in-the-loop hotel-booking workflow
from src/langgraph_gemini_hil.py.  Python dict and truthiness semantics are
made explicit: optional record fields are `Option` values, Python truthiness
of a field is the `truthy*` functions below, and the partial state updates
returned by each graph node are applied to the incoming state explicitly
(LangGraph merges the returned dict into the current state; a key absent from
the returned dict keeps its previous value).
-/

deriving instance DecidableEq for Except

namespace LangGraphHIL

/-- The booking record held in the `extracted_data` key of the workflow state
(the keys fixed by the extraction prompt, plus the `error` marker set by the
failure branches of `extract_data_node`).  Every access in the source goes
through `dict.get`, which identifies an absent key with an explicit null, so
`Option` faithfully captures both. -/
structure ExtractedData where
  lokasi : Option String
  tanggal_checkin : Option String
  tanggal_checkout : Option String
  jumlah_malam : Option Int
  jumlah_tamu : Option Int
  budget : Option Int
  preferensi : List String
  error : Option String
deriving DecidableEq

/-- The workflow state threaded through the graph (`class BookingState`,
src/langgraph_gemini_hil.py lines 26-31). -/
structure BookingState where
  user_input : String
  extracted_data : ExtractedData
  iteration_count : Nat
  status : String
  messages : List String
deriving DecidableEq

/-- Python truthiness of an optional string: `None` and `""` are falsy. -/
def truthyStr : Option String → Bool
  | none => false
  | some s => !(s == "")

/-- Python truthiness of an optional integer: `None` and `0` are falsy. -/
def truthyInt : Option Int → Bool
  | none => false
  | some n => !(n == 0)

/-- A proleptic Gregorian calendar date as validated by
`datetime.strptime(s, "%Y-%m-%d")` (year 1..9999). -/
structure Date where
  year : Nat
  month : Nat
  day : Nat
deriving DecidableEq

def isLeap (y : Nat) : Bool :=
  y % 4 == 0 && (y % 100 != 0 || y % 400 == 0)

def daysInMonth (y m : Nat) : Nat :=
  if m = 2 then (if isLeap y then 29 else 28)
  else if m = 4 ∨ m = 6 ∨ m = 9 ∨ m = 11 then 30
  else 31

/-- `str.split` behaviour for the single separator character `-`, used to
model the anchored regex `\d\d\d\d-\d{1,2}-\d{1,2}` that
`strptime("%Y-%m-%d")` compiles to. -/
def splitOnDash : List Char → List (List Char)
  | [] => [[]]
  | '-' :: rest => [] :: splitOnDash rest
  | c :: rest =>
    match splitOnDash rest with
    | [] => [[c]]
    | p :: ps => (c :: p) :: ps

def digitsToNat (cs : List Char) : Nat :=
  cs.foldl (fun acc c => acc * 10 + (c.toNat - '0'.toNat)) 0

/-- `datetime.strptime(s, "%Y-%m-%d")`: exactly four year digits, one or two
month digits, one or two day digits, nothing else, then calendar validation
by the `datetime` constructor (year ≥ 1, month 1..12, day within the month).
Returns `none` exactly where Python raises `ValueError`. -/
def parseDate (s : String) : Option Date :=
  match splitOnDash s.toList with
  | [ys, ms, ds] =>
    if ys.length = 4 ∧ ys.all Char.isDigit ∧
        1 ≤ ms.length ∧ ms.length ≤ 2 ∧ ms.all Char.isDigit ∧
        1 ≤ ds.length ∧ ds.length ≤ 2 ∧ ds.all Char.isDigit then
      let y := digitsToNat ys
      let m := digitsToNat ms
      let d := digitsToNat ds
      if 1 ≤ y ∧ 1 ≤ m ∧ m ≤ 12 ∧ 1 ≤ d ∧ d ≤ daysInMonth y m then
        some ⟨y, m, d⟩
      else none
    else none
  | _ => none

/-- Days in years 1..y-1 of the proleptic Gregorian calendar. -/
def daysBeforeYear (y : Nat) : Nat :=
  let z := y - 1
  365 * z + z / 4 + z / 400 - z / 100

def daysBeforeMonth (y m : Nat) : Nat :=
  (List.range (m - 1)).foldl (fun acc i => acc + daysInMonth y (i + 1)) 0

/-- `date.toordinal()`: day number with 0001-01-01 as day 1.  Comparison of
two `datetime` values parsed at midnight coincides with comparison of their
ordinals, and `(b - a).days` is `toOrdinal b - toOrdinal a`. -/
def toOrdinal (d : Date) : Nat :=
  daysBeforeYear d.year + daysBeforeMonth d.year d.month + d.day

/-- Largest valid ordinal, `date(9999, 12, 31).toordinal()`; beyond it the
`datetime` addition used for the checkout derivation raises OverflowError. -/
def maxOrdinal : Nat := 3652059

/-- `date.fromordinal` for day numbers in 1..maxOrdinal, via the standard
civil-from-days conversion (shifting the era origin to 0000-03-01). -/
def fromOrdinal (ord : Int) : Date :=
  let z := ord + 305
  let era := z.ediv 146097
  let doe := (z.emod 146097).toNat
  let yoe := (doe - doe / 1460 + doe / 36524 - doe / 146096) / 365
  let doy := doe - (365 * yoe + yoe / 4 - yoe / 100)
  let mp := (5 * doy + 2) / 153
  let d := doy - (153 * mp + 2) / 5 + 1
  let m := if mp < 10 then mp + 3 else mp - 9
  let y := era * 400 + yoe
  let y2 := if m ≤ 2 then y + 1 else y
  ⟨y2.toNat, m, d⟩

def padNum (n width : Nat) : String :=
  let s := toString n
  if s.length < width then String.mk (List.replicate (width - s.length) '0') ++ s
  else s

/-- `strftime("%Y-%m-%d")`, zero padded. -/
def formatDate (d : Date) : String :=
  padNum d.year 4 ++ "-" ++ padNum d.month 2 ++ "-" ++ padNum d.day 2

def invalid_checkout_warning : String :=
  "⚠️ Warning: Checkout date invalid, akan diperbaiki oleh user"

def invalid_format_warning : String :=
  "⚠️ Warning: Format tanggal tidak valid"

def invalid_checkin_warning : String :=
  "⚠️ Warning: Format tanggal checkin tidak valid"

/-- The date-reconciliation block of `extract_data_node`
(src/langgraph_gemini_hil.py lines 120-144), applied to the decoded candidate
record.  Returns the adjusted record together with the list of console
warnings printed, or `Except.error` for the one uncaught exception the block
can raise (`OverflowError` from `checkin_date + timedelta(days=nights)` when
the result leaves the `datetime` range; `ValueError` from `strptime` is
caught by the inner handlers and turned into a warning). -/
def dateReconcile (d : ExtractedData) : Except String (ExtractedData × List String) :=
  if truthyStr d.tanggal_checkin && truthyStr d.tanggal_checkout then
    match parseDate (d.tanggal_checkin.getD ""), parseDate (d.tanggal_checkout.getD "") with
    | some ci, some co =>
      if toOrdinal co ≤ toOrdinal ci then
        .ok (d, [invalid_checkout_warning])
      else
        .ok ({ d with jumlah_malam := some ((toOrdinal co : Int) - (toOrdinal ci : Int)) }, [])
    | _, _ => .ok (d, [invalid_format_warning])
  else if truthyStr d.tanggal_checkin && truthyInt d.jumlah_malam then
    match parseDate (d.tanggal_checkin.getD "") with
    | some ci =>
      let o := (toOrdinal ci : Int) + d.jumlah_malam.getD 0
      if 1 ≤ o ∧ o ≤ (maxOrdinal : Int) then
        .ok ({ d with tanggal_checkout := some (formatDate (fromOrdinal o)) }, [])
      else .error "date value out of range"
    | none => .ok (d, [invalid_checkin_warning])
  else .ok (d, [])

/-- Outcome of the call to the external extraction collaborator together with
the response cleaning and JSON decoding of lines 109-118: `unavailable` when
`setup_gemini()` returns `None` (library missing or no API key), `failure e`
when anything in the `try` block up to `json.loads` raises (network error,
undecodable response) with `e` the string of the exception, and `success c`
when a candidate record was decoded. -/
inductive GeminiOutcome where
  | unavailable
  | failure (msg : String)
  | success (candidate : ExtractedData)

/-- The `extracted_data` dict written by the failure branches
(`{"error": "Gemini not available"}` at line 51, `{"error": str(e)}` at
line 159): a fresh record holding only the error marker. -/
def errorData (msg : String) : ExtractedData :=
  { lokasi := none, tanggal_checkin := none, tanggal_checkout := none,
    jumlah_malam := none, jumlah_tamu := none, budget := none,
    preferensi := [], error := some msg }

/-- `extract_data_node` (lines 44-162), with the LangGraph merge of the
returned partial dict into the incoming state applied: keys absent from the
returned dict (`user_input` everywhere; `iteration_count` in the two failure
branches) keep their previous value. -/
def extract_data_node (state : BookingState) (outcome : GeminiOutcome) : BookingState :=
  match outcome with
  | .unavailable =>
    { state with
        extracted_data := errorData "Gemini not available",
        status := "error",
        messages := state.messages ++ ["❌ Gemini tidak tersedia"] }
  | .failure e =>
    { state with
        extracted_data := errorData e,
        status := "error",
        messages := state.messages ++ ["❌ Error: " ++ e] }
  | .success c =>
    match dateReconcile c with
    | .error e =>
      { state with
          extracted_data := errorData e,
          status := "error",
          messages := state.messages ++ ["❌ Error: " ++ e] }
    | .ok (data, _warnings) =>
      { state with
          extracted_data := data,
          iteration_count := state.iteration_count + 1,
          status := "extracted",
          messages := state.messages ++
            ["✅ Data diekstrak (iterasi " ++ toString (state.iteration_count + 1) ++ ")"] }

/-- ASCII `str.lower`, enough for the fixed decision vocabularies compared
against (the source lowercases the human decision before comparing). -/
def lowerChar (c : Char) : Char :=
  if 'A' ≤ c ∧ c ≤ 'Z' then Char.ofNat (c.toNat + 32) else c

def lowerString (s : String) : String :=
  String.mk (s.toList.map lowerChar)

def affirm_words : List String := ["setuju", "ok", "benar"]

def finish_words : List String := ["selesai", "lanjut"]

/-- The required-field table of `human_review_node` (lines 197-202): dict
key paired with its human-readable label, in dict insertion order. -/
def required_fields : List (String × String) :=
  [("lokasi", "lokasi tujuan"),
   ("tanggal_checkin", "tanggal check-in"),
   ("jumlah_malam", "jumlah malam"),
   ("jumlah_tamu", "jumlah tamu")]

/-- Python truthiness of `extracted_data.get(field)` for a required-field
key (an unknown key yields `None`, which is falsy). -/
def fieldTruthy (e : ExtractedData) (field : String) : Bool :=
  if field = "lokasi" then truthyStr e.lokasi
  else if field = "tanggal_checkin" then truthyStr e.tanggal_checkin
  else if field = "jumlah_malam" then truthyInt e.jumlah_malam
  else if field = "jumlah_tamu" then truthyInt e.jumlah_tamu
  else false

/-- The loop of lines 204-207: labels of the required fields whose value is
falsy, in table order. -/
def missingFields (e : ExtractedData) : List String :=
  required_fields.filterMap (fun p => if fieldTruthy e p.1 then none else some p.2)

/-- Routing target of the `Command` returned by `human_review_node`. -/
inductive Goto where
  | extract_data
  | finalize
deriving DecidableEq

/-- The LangGraph `Command(goto=..., update=...)` value returned by
`human_review_node`: the target node plus the partial state update (only the
`user_input` and `messages` keys ever appear in the source). -/
structure Command where
  goto : Goto
  update_user_input : Option String
  update_messages : Option (List String)
deriving DecidableEq

/-- The decision processing of `human_review_node` after the `interrupt()`
call returns the human text (lines 194-233).  The `interrupt` payload itself
is display formatting only and carries no routing information. -/
def human_review_decide (state : BookingState) (human_decision : String) : Command :=
  if lowerString human_decision ∈ affirm_words then
    let missing := missingFields state.extracted_data
    if missing ≠ [] then
      let missing_text := String.intercalate ", " missing
      { goto := .extract_data,
        update_user_input := some ("Data masih kurang: " ++ missing_text ++
          ". Silakan lengkapi informasi yang belum disebutkan."),
        update_messages := some (state.messages ++
          ["⚠️ Data belum lengkap: " ++ missing_text]) }
    else
      { goto := .finalize, update_user_input := none, update_messages := none }
  else if lowerString human_decision ∈ finish_words then
    { goto := .finalize, update_user_input := none, update_messages := none }
  else
    { goto := .extract_data,
      update_user_input := some human_decision,
      update_messages := some (state.messages ++
        ["🔄 Memproses input tambahan: " ++ human_decision]) }

/-- LangGraph applies a `Command.update` dict by merging it into the current
state; absent keys keep their previous value. -/
def applyCommand (state : BookingState) (c : Command) : BookingState :=
  { state with
      user_input := c.update_user_input.getD state.user_input,
      messages := c.update_messages.getD state.messages }

def orDefaultStr (o : Option String) (dflt : String) : String :=
  match o with
  | some s => if s = "" then dflt else s
  | none => dflt

def orDefaultInt (o : Option Int) (dflt : String) : String :=
  match o with
  | some n => if n = 0 then dflt else toString n
  | none => dflt

def insertSep : List Char → List Char
  | a :: b :: c :: d :: rest => a :: b :: c :: '.' :: insertSep (d :: rest)
  | cs => cs

/-- Python `f"Rp {budget:,}".replace(",", ".")`: decimal digits grouped in
threes from the right. -/
def groupThousands (n : Int) : String :=
  let s := toString n.natAbs
  let grouped := String.mk (insertSep s.toList.reverse).reverse
  if n < 0 then "-" ++ grouped else grouped

/-- `format_budget` (lines 311-317). -/
def format_budget (budget : Option Int) : String :=
  match budget with
  | none => "Tidak disebutkan"
  | some b => if b = 0 then "Tidak disebutkan" else "Rp " ++ groupThousands b

def prefsDisplay (l : List String) : String :=
  if l.isEmpty then "Tidak ada" else String.intercalate ", " l

/-- The final summary f-string of `finalize_node` (lines 242-255). -/
def summary_message (state : BookingState) : String :=
  let fd := state.extracted_data
  "\n🎉 DATA BOOKING FINAL:\n🏨 Lokasi: " ++ orDefaultStr fd.lokasi "Tidak disebutkan" ++
  "\n📅 Check-in: " ++ orDefaultStr fd.tanggal_checkin "Tidak disebutkan" ++
  "\n📅 Check-out: " ++ orDefaultStr fd.tanggal_checkout "Tidak disebutkan" ++
  "\n🌙 Jumlah malam: " ++ orDefaultInt fd.jumlah_malam "Tidak disebutkan" ++
  "\n👥 Jumlah tamu: " ++ orDefaultInt fd.jumlah_tamu "Tidak disebutkan" ++
  "\n💰 Budget: " ++ format_budget fd.budget ++
  "\n⭐ Preferensi: " ++ prefsDisplay fd.preferensi ++
  "\n\n📊 Total iterasi HIL: " ++ toString state.iteration_count ++
  "\n🤖 Model AI: Google Gemini 2.5 Flash\n✅ Status: Siap untuk pencarian hotel\n    "

/-- `finalize_node` (lines 235-260), with the LangGraph merge applied: only
`status` and `messages` are in the returned dict, everything else keeps its
previous value. -/
def finalize_node (state : BookingState) : BookingState :=
  { state with
      status := "completed",
      messages := state.messages ++ [summary_message state] }

/-- The graph nodes of `create_langgraph_hil` (lines 322-333), including the
framework START and END markers. -/
inductive Node where
  | START
  | extract_data
  | human_review
  | finalize
  | END
deriving DecidableEq

/-- The static edges added by `create_langgraph_hil`: START → extract_data,
extract_data → human_review, finalize → END.  `human_review` has no static
edge; it routes through the `Command` it returns. -/
def staticEdge : Node → Option Node
  | .START => some .extract_data
  | .extract_data => some .human_review
  | .finalize => some .END
  | _ => none

/-- Modelled from the spec: the Workflow Executor resume semantics of
section 4.2.  The runtime that persists state at the `interrupt()` suspension
point and drives node execution on `Command(resume=...)` lives in the
external LangGraph library (MemorySaver checkpointer, `graph.invoke`), not in
this repository; only the graph wiring of `create_langgraph_hil` is source.
Per the spec, resuming a session already in `completed` returns the stored
terminal state unchanged and performs no node execution; otherwise the human
text enters the review gate at the suspension point, and the workflow runs to
the next suspension point (after another extraction) or to the terminal
state (finalization). -/
def resume (state : BookingState) (human_text : String) (outcome : GeminiOutcome) :
    BookingState :=
  if state.status = "completed" then state
  else
    let cmd := human_review_decide state human_text
    match cmd.goto with
    | .finalize => finalize_node (applyCommand state cmd)
    | .extract_data => extract_data_node (applyCommand state cmd) outcome

/-- An empty `extracted_data` dict. -/
def emptyData : ExtractedData :=
  { lokasi := none, tanggal_checkin := none, tanggal_checkout := none,
    jumlah_malam := none, jumlah_tamu := none, budget := none,
    preferensi := [], error := none }

/-- The initial state built by `run_langgraph_hil_demo` (lines 370-376). -/
def initState : BookingState :=
  { user_input := "hotel di Ubud", extracted_data := emptyData,
    iteration_count := 0, status := "start", messages := [] }

/-- A mid-session state whose `extracted_data` already holds a location and a
budget (the very example used in the extraction prompt, lines 82-89). -/
def nusaDuaState : BookingState :=
  { user_input := "preferensi spa",
    extracted_data := { emptyData with lokasi := some "Nusa Dua", budget := some 2000000 },
    iteration_count := 1, status := "extracted", messages := [] }

/-- A candidate record carrying only a preference, every scalar field null
(the wrong-merge example the extraction prompt itself warns about). -/
def spaCandidate : ExtractedData :=
  { emptyData with preferensi := ["spa"] }

/-- A record with all four required fields present. -/
def completeData : ExtractedData :=
  { emptyData with
      lokasi := some "Ubud", tanggal_checkin := some "2025-06-20",
      tanggal_checkout := some "2025-06-25", jumlah_malam := some 5, jumlah_tamu := some 2 }

/-- A terminal session state as produced by `finalize_node`. -/
def completedState : BookingState :=
  { user_input := "setuju", extracted_data := completeData,
    iteration_count := 1, status := "completed", messages := ["✅ Data diekstrak (iterasi 1)"] }

/-- A suspended state whose data misses three of the four required fields. -/
def incompleteState : BookingState :=
  { user_input := "hotel di Ubud", extracted_data := { emptyData with lokasi := some "Ubud" },
    iteration_count := 1, status := "extracted", messages := [] }

/-- A suspended state missing exactly the guest count. -/
def missingGuestState : BookingState :=
  { user_input := "hotel di Ubud",
    extracted_data := { emptyData with
      lokasi := some "Ubud", tanggal_checkin := some "2025-06-20", jumlah_malam := some 5 },
    iteration_count := 1, status := "extracted", messages := ["✅ Data diekstrak (iterasi 1)"] }

/-- A suspended state whose required fields hold falsy values: empty-string
location, zero nights, zero guests. -/
def falsyState : BookingState :=
  { user_input := "hotel",
    extracted_data := { emptyData with
      lokasi := some "", tanggal_checkin := some "2025-06-20",
      jumlah_malam := some 0, jumlah_tamu := some 0 },
    iteration_count := 2, status := "extracted", messages := [] }

/-- A candidate with checkout not after checkin. -/
def invalidRangeData : ExtractedData :=
  { emptyData with tanggal_checkin := some "2025-06-25", tanggal_checkout := some "2025-06-20" }

/-- A candidate with checkin and nights present and checkout absent. -/
def deriveData : ExtractedData :=
  { emptyData with tanggal_checkin := some "2025-06-20", jumlah_malam := some 5 }

/-- Helper: under an affirmative decision with a non-empty missing-field
list, the review gate routes to extraction with the synthesized prompt and
audit message over exactly that list. -/
lemma affirm_incomplete_routing (s : BookingState) (d : String)
    (h : lowerString d ∈ affirm_words) (hm : missingFields s.extracted_data ≠ []) :
    human_review_decide s d =
      { goto := .extract_data,
        update_user_input := some ("Data masih kurang: " ++
          String.intercalate ", " (missingFields s.extracted_data) ++
          ". Silakan lengkapi informasi yang belum disebutkan."),
        update_messages := some (s.messages ++
          ["⚠️ Data belum lengkap: " ++
            String.intercalate ", " (missingFields s.extracted_data)]) } := by
  simp [human_review_decide, h, hm]

/-- Helper: a location that is the empty string makes its label missing. -/
lemma mem_missing_lokasi (e : ExtractedData) (h : e.lokasi = some "") :
    "lokasi tujuan" ∈ missingFields e := by
  refine List.mem_filterMap.mpr ⟨("lokasi", "lokasi tujuan"), by decide, ?_⟩
  simp [fieldTruthy, truthyStr, h]

/-- Helper: zero nights makes its label missing. -/
lemma mem_missing_malam (e : ExtractedData) (h : e.jumlah_malam = some 0) :
    "jumlah malam" ∈ missingFields e := by
  refine List.mem_filterMap.mpr ⟨("jumlah_malam", "jumlah malam"), by decide, ?_⟩
  simp [fieldTruthy, truthyInt, h]

/-- Helper: zero guests makes its label missing. -/
lemma mem_missing_tamu (e : ExtractedData) (h : e.jumlah_tamu = some 0) :
    "jumlah tamu" ∈ missingFields e := by
  refine List.mem_filterMap.mpr ⟨("jumlah_tamu", "jumlah tamu"), by decide, ?_⟩
  simp [fieldTruthy, truthyInt, h]

/-- C1 counterexample: starting from a state whose `extracted_data` holds
`lokasi = "Nusa Dua"`, an extraction pass whose decoded candidate has
`lokasi` null (it only carries a preference) leaves `lokasi` cleared in the
resulting state, so a field non-null in the existing record and null in the
candidate does NOT remain unchanged. -/
theorem c1_counterexample :
    nusaDuaState.extracted_data.lokasi = some "Nusa Dua"
    ∧ spaCandidate.lokasi = none
    ∧ ¬ ((extract_data_node nusaDuaState (.success spaCandidate)).extracted_data.lokasi
          = some "Nusa Dua") := by decide

/-- C1 amended: the extraction step stores the date-reconciled candidate
wholesale as the new `extracted_data`, independent of the existing record;
preservation of existing non-null fields is delegated to the external
collaborator through the prompt text, not enforced by the code. -/
theorem c1_extract_replaces_wholesale (s : BookingState) (c : ExtractedData) :
    (extract_data_node s (.success c)).extracted_data =
      match dateReconcile c with
      | .ok (data, _) => data
      | .error e => errorData e := by
  cases h : dateReconcile c with
  | ok p => cases p with
    | mk data w => simp [extract_data_node, h]
  | error e => simp [extract_data_node, h]

/-- C2: on collaborator unavailability or any exception while invoking and
decoding the response, `extract_data_node` is total (never raises): it
returns the incoming state with `extracted_data` replaced by an error-marker
record, status `error`, and a diagnostic message appended; the static graph
edge then carries execution onward from the extraction node to the
human-review suspension point. -/
theorem c2_extraction_failure_contained (s : BookingState) (e : String) :
    (extract_data_node s .unavailable).extracted_data = errorData "Gemini not available"
    ∧ (extract_data_node s .unavailable).status = "error"
    ∧ (extract_data_node s .unavailable).messages = s.messages ++ ["❌ Gemini tidak tersedia"]
    ∧ (extract_data_node s (.failure e)).extracted_data = errorData e
    ∧ (extract_data_node s (.failure e)).status = "error"
    ∧ (extract_data_node s (.failure e)).messages = s.messages ++ ["❌ Error: " ++ e]
    ∧ staticEdge .extract_data = some .human_review :=
  ⟨rfl, rfl, rfl, rfl, rfl, rfl, rfl⟩

/-- C3 counterexample: an extraction attempt that ends in a collaborator
error does NOT increment `iteration_count` (the error branches of
`extract_data_node` omit the key from the returned update, so the previous
value is kept). -/
theorem c3_counterexample :
    initState.iteration_count = 0
    ∧ (extract_data_node initState .unavailable).iteration_count = 0
    ∧ ¬ ((extract_data_node initState .unavailable).iteration_count
          = initState.iteration_count + 1) := by decide

/-- C3 amended: `iteration_count` is incremented by exactly one on each
successful extraction attempt and left unchanged by attempts that end in
collaborator unavailability or an exception; it never decreases, and the
review gate and finalization leave it unchanged. -/
theorem c3_iteration_count_monotone (s : BookingState) (o : GeminiOutcome) (d : String) :
    ((extract_data_node s o).iteration_count =
      match o with
      | .success c =>
        match dateReconcile c with
        | .ok _ => s.iteration_count + 1
        | .error _ => s.iteration_count
      | _ => s.iteration_count)
    ∧ s.iteration_count ≤ (extract_data_node s o).iteration_count
    ∧ (applyCommand s (human_review_decide s d)).iteration_count = s.iteration_count
    ∧ (finalize_node s).iteration_count = s.iteration_count := by
  refine ⟨?_, ?_, rfl, rfl⟩
  · cases o with
    | unavailable => rfl
    | failure e => rfl
    | success c =>
      cases h : dateReconcile c with
      | ok p => simp [extract_data_node, h]
      | error e => simp [extract_data_node, h]
  · cases o with
    | unavailable => exact Nat.le_refl _
    | failure e => exact Nat.le_refl _
    | success c =>
      cases h : dateReconcile c with
      | ok p => simp [extract_data_node, h]
      | error e => simp [extract_data_node, h]

/-- C4: on a decision whose lowercase form is in the affirm vocabulary, the
review gate checks the fixed required-field table; with all of them present
it routes to finalization with no state update, and with any missing it
routes to extraction, with `user_input` synthesized over exactly the missing
labels and an audit message appended. -/
theorem c4_affirm_completeness_gate (s : BookingState) (d : String)
    (h : lowerString d ∈ affirm_words) :
    (missingFields s.extracted_data = [] →
      human_review_decide s d =
        { goto := .finalize, update_user_input := none, update_messages := none })
    ∧ (missingFields s.extracted_data ≠ [] →
      human_review_decide s d =
        { goto := .extract_data,
          update_user_input := some ("Data masih kurang: " ++
            String.intercalate ", " (missingFields s.extracted_data) ++
            ". Silakan lengkapi informasi yang belum disebutkan."),
          update_messages := some (s.messages ++
            ["⚠️ Data belum lengkap: " ++
              String.intercalate ", " (missingFields s.extracted_data)]) }) := by
  constructor
  · intro hm
    simp [human_review_decide, h, hm]
  · intro hm
    exact affirm_incomplete_routing s d h hm

/-- C4 witness: with only the guest count missing, the affirmative decision
"Setuju" routes to extraction and the synthesized prompt names exactly
"jumlah tamu"; the audit message is appended to the prior messages. -/
theorem c4_witness :
    lowerString "Setuju" ∈ affirm_words
    ∧ human_review_decide missingGuestState "Setuju" =
      { goto := .extract_data,
        update_user_input := some
          "Data masih kurang: jumlah tamu. Silakan lengkapi informasi yang belum disebutkan.",
        update_messages := some
          ["✅ Data diekstrak (iterasi 1)", "⚠️ Data belum lengkap: jumlah tamu"] } := by
  have h : lowerString "Setuju" ∈ affirm_words := by decide
  refine ⟨h, ?_⟩
  have h2 := (c4_affirm_completeness_gate missingGuestState "Setuju" h).2 (by decide)
  rw [h2]
  decide

/-- C5: a decision whose lowercase form is in the finish vocabulary routes
straight to finalization with no update, for every state, in particular
regardless of missing required fields. -/
theorem c5_finish_overrides (s : BookingState) (d : String)
    (h : lowerString d ∈ finish_words) :
    human_review_decide s d =
      { goto := .finalize, update_user_input := none, update_messages := none } := by
  have hna : lowerString d ∉ affirm_words := by
    simp only [finish_words, List.mem_cons, List.not_mem_nil, or_false] at h
    rcases h with h | h <;> rw [h] <;> decide
  simp [human_review_decide, hna, h]

/-- C5 witness: on a state with three required fields missing, the decision
"SELESAI" still routes to finalization, bypassing the completeness check. -/
theorem c5_witness :
    lowerString "SELESAI" ∈ finish_words
    ∧ missingFields incompleteState.extracted_data ≠ []
    ∧ human_review_decide incompleteState "SELESAI" =
      { goto := .finalize, update_user_input := none, update_messages := none } :=
  ⟨by decide, by decide, c5_finish_overrides incompleteState "SELESAI" (by decide)⟩

/-- C6: resuming a session whose status is already `completed` returns the
stored terminal state unchanged (so `extracted_data`, `iteration_count` and
`messages` are all identical and no node function runs). -/
theorem c6_resume_completed_idempotent (s : BookingState) (t : String)
    (o : GeminiOutcome) (h : s.status = "completed") :
    resume s t o = s := by
  simp [resume, h]

/-- C6 witness: resuming a concrete completed session with a fresh human
text (and even an unavailable collaborator) returns it unchanged. -/
theorem c6_witness : resume completedState "lanjut" .unavailable = completedState :=
  c6_resume_completed_idempotent completedState "lanjut" .unavailable rfl

/-- C7: when checkin and checkout are both present and both parse, but
checkout is not strictly after checkin, date reconciliation returns the
record unchanged (in particular `jumlah_malam` is not overwritten and the
date fields stay in place) together with exactly the invalid-checkout
warning, and no exception escapes (the result is `Except.ok`). -/
theorem c7_invalid_range_guard (d : ExtractedData) (ci co : String) (dci dco : Date)
    (hci : d.tanggal_checkin = some ci) (hco : d.tanggal_checkout = some co)
    (hci0 : ci ≠ "") (hco0 : co ≠ "")
    (hpci : parseDate ci = some dci) (hpco : parseDate co = some dco)
    (hle : toOrdinal dco ≤ toOrdinal dci) :
    dateReconcile d = .ok (d, [invalid_checkout_warning]) := by
  unfold dateReconcile
  rw [hci, hco]
  simp [truthyStr, hci0, hco0, hpci, hpco, hle]

/-- C7 witness: checkin 2025-06-25 with checkout 2025-06-20 leaves the
record unchanged (nights stays null) and yields the warning. -/
theorem c7_witness :
    invalidRangeData.jumlah_malam = none
    ∧ dateReconcile invalidRangeData = .ok (invalidRangeData, [invalid_checkout_warning]) :=
  ⟨rfl,
    c7_invalid_range_guard invalidRangeData "2025-06-25" "2025-06-20"
      ⟨2025, 6, 25⟩ ⟨2025, 6, 20⟩ rfl rfl (by decide) (by decide)
      (by decide) (by decide) (by decide)⟩

/-- C8: when checkin is present and parses, nights is present and truthy,
and checkout is absent, date reconciliation derives
checkout = checkin + nights days (formatted back to YYYY-MM-DD), leaving
everything else unchanged. -/
theorem c8_checkout_derivation (d : ExtractedData) (ci : String) (dci : Date) (n : Int)
    (hci : d.tanggal_checkin = some ci) (hci0 : ci ≠ "")
    (hp : parseDate ci = some dci)
    (hn : d.jumlah_malam = some n) (hn0 : n ≠ 0)
    (hco : d.tanggal_checkout = none)
    (hrange : 1 ≤ (toOrdinal dci : Int) + n ∧ (toOrdinal dci : Int) + n ≤ (maxOrdinal : Int)) :
    dateReconcile d =
      .ok
        ({ d with
            tanggal_checkout := some (formatDate (fromOrdinal ((toOrdinal dci : Int) + n))) },
         []) := by
  unfold dateReconcile
  rw [hci, hco, hn]
  simp [truthyStr, truthyInt, hci0, hn0, hp, hrange.1, hrange.2]

/-- C8 witness: checkin 2025-06-20 with nights 5 and no checkout derives
checkout 2025-06-25. -/
theorem c8_witness :
    dateReconcile deriveData =
      .ok ({ deriveData with tanggal_checkout := some "2025-06-25" }, []) := by
  have h := c8_checkout_derivation deriveData "2025-06-20" ⟨2025, 6, 20⟩ 5
    rfl (by decide) (by decide) rfl (by decide) rfl (by decide)
  rw [h]
  decide

/-- C9: after every node execution, the resulting messages list is the prior
list with zero or more entries appended at the end: this holds for the
extraction node on every outcome, for the review gate with its command
update applied, and for finalization. -/
theorem c9_messages_append_only (s : BookingState) (o : GeminiOutcome) (d : String) :
    (∃ t, (extract_data_node s o).messages = s.messages ++ t)
    ∧ (∃ t, (applyCommand s (human_review_decide s d)).messages = s.messages ++ t)
    ∧ (∃ t, (finalize_node s).messages = s.messages ++ t) := by
  refine ⟨?_, ?_, ⟨[summary_message s], rfl⟩⟩
  · cases o with
    | unavailable => exact ⟨_, rfl⟩
    | failure e => exact ⟨_, rfl⟩
    | success c =>
      cases h : dateReconcile c with
      | ok p =>
        exact ⟨["✅ Data diekstrak (iterasi " ++ toString (s.iteration_count + 1) ++ ")"],
          by simp [extract_data_node, h]⟩
      | error e =>
        exact ⟨["❌ Error: " ++ e], by simp [extract_data_node, h]⟩
  · by_cases h1 : lowerString d ∈ affirm_words
    · by_cases h2 : missingFields s.extracted_data = []
      · exact ⟨[], by simp [human_review_decide, applyCommand, h1, h2]⟩
      · exact ⟨["⚠️ Data belum lengkap: " ++
            String.intercalate ", " (missingFields s.extracted_data)],
          by simp [human_review_decide, applyCommand, h1, h2]⟩
    · by_cases h3 : lowerString d ∈ finish_words
      · exact ⟨[], by simp [human_review_decide, applyCommand, h1, h3]⟩
      · exact ⟨["🔄 Memproses input tambahan: " ++ d],
          by simp [human_review_decide, applyCommand, h1, h3]⟩

/-- C10: under an affirmative decision, a required field holding a falsy
value — empty-string location, zero nights, or zero guests — is treated as
missing: its label lands in the missing list, the gate routes to extraction,
and the synthesized `user_input` is built over that list. -/
theorem c10_falsy_required_fields (s : BookingState) (d : String)
    (h : lowerString d ∈ affirm_words) :
    (s.extracted_data.lokasi = some "" →
      "lokasi tujuan" ∈ missingFields s.extracted_data
      ∧ (human_review_decide s d).goto = .extract_data
      ∧ (human_review_decide s d).update_user_input = some ("Data masih kurang: " ++
          String.intercalate ", " (missingFields s.extracted_data) ++
          ". Silakan lengkapi informasi yang belum disebutkan."))
    ∧ (s.extracted_data.jumlah_malam = some 0 →
      "jumlah malam" ∈ missingFields s.extracted_data
      ∧ (human_review_decide s d).goto = .extract_data
      ∧ (human_review_decide s d).update_user_input = some ("Data masih kurang: " ++
          String.intercalate ", " (missingFields s.extracted_data) ++
          ". Silakan lengkapi informasi yang belum disebutkan."))
    ∧ (s.extracted_data.jumlah_tamu = some 0 →
      "jumlah tamu" ∈ missingFields s.extracted_data
      ∧ (human_review_decide s d).goto = .extract_data
      ∧ (human_review_decide s d).update_user_input = some ("Data masih kurang: " ++
          String.intercalate ", " (missingFields s.extracted_data) ++
          ". Silakan lengkapi informasi yang belum disebutkan.")) := by
  refine ⟨fun h1 => ?_, fun h2 => ?_, fun h3 => ?_⟩
  · have hm := mem_missing_lokasi s.extracted_data h1
    have hne := List.ne_nil_of_mem hm
    have hr := affirm_incomplete_routing s d h hne
    exact ⟨hm, by rw [hr], by rw [hr]⟩
  · have hm := mem_missing_malam s.extracted_data h2
    have hne := List.ne_nil_of_mem hm
    have hr := affirm_incomplete_routing s d h hne
    exact ⟨hm, by rw [hr], by rw [hr]⟩
  · have hm := mem_missing_tamu s.extracted_data h3
    have hne := List.ne_nil_of_mem hm
    have hr := affirm_incomplete_routing s d h hne
    exact ⟨hm, by rw [hr], by rw [hr]⟩

/-- C10 witness: a state with empty-string location, zero nights and zero
guests, under the affirmative decision "ok", has all three labels in the
missing list and routes to extraction. -/
theorem c10_witness :
    falsyState.extracted_data.lokasi = some ""
    ∧ falsyState.extracted_data.jumlah_malam = some 0
    ∧ falsyState.extracted_data.jumlah_tamu = some 0
    ∧ "lokasi tujuan" ∈ missingFields falsyState.extracted_data
    ∧ "jumlah malam" ∈ missingFields falsyState.extracted_data
    ∧ "jumlah tamu" ∈ missingFields falsyState.extracted_data
    ∧ (human_review_decide falsyState "ok").goto = .extract_data := by
  have h := c10_falsy_required_fields falsyState "ok" (by decide)
  exact ⟨rfl, rfl, rfl, (h.1 rfl).1, (h.2.1 rfl).1, (h.2.2 rfl).1, (h.2.2 rfl).2.1⟩

end LangGraphHIL
